import Mathlib

/-!
# DialSettings: the settings record, its side-table and `Validate`

A shallow embedding of `internal/settings.go`, `internal/setting/grpcsetting/grcpsetting.go`
and `option/grpcoption/grpcoption.go`.

Conventions of the embedding:
* a Go pointer, interface value, func value or slice that may be `nil` is an `Option`
  (`none` is `nil`); a non-nil slice of length zero is `some []`;
* a Go `map` is an association list with at most the first binding of a key visible,
  and a nil map is `none`;
* a Go `error` is an `Option String`: `none` is `nil`, `some msg` is `errors.New(msg)`;
* a method with a pointer receiver that assigns to the record returns the new record.
-/

namespace DialSettingsSpec

/-! ## External collaborators -/

/-- Referent of a non-nil `oauth2.TokenSource`. -/
structure TokenSource where
  id : Nat
  deriving DecidableEq, Repr

/-- Referent of a non-nil `*google.Credentials`. -/
structure Credentials where
  id : Nat
  deriving DecidableEq, Repr

/-- Referent of a non-nil `*http.Client`. -/
structure HTTPClient where
  id : Nat
  deriving DecidableEq, Repr

/-- A `grpc.DialOption` value. -/
structure DialOption where
  id : Nat
  deriving DecidableEq, Repr

/-- Referent of a non-nil `ConnPool`. -/
structure ConnPool where
  id : Nat
  deriving DecidableEq, Repr

/-- Referent of a non-nil client-certificate callback. -/
structure ClientCertSource where
  id : Nat
  deriving DecidableEq, Repr

/-- Referent of a non-nil `*grpc.ClientConn`. -/
structure ClientConn where
  id : Nat
  deriving DecidableEq, Repr

/-- Modelled from the spec: the type `impersonate.Config` is declared outside the files at hand;
the spec gives it a target principal and its own scope list. -/
structure ImpersonateConfig where
  Target : String
  Scopes : Option (List String)
  deriving DecidableEq, Repr

/-- A value of Go type `interface{}`: the nil interface, a `*grpc.ClientConn` (whose pointer
may itself be nil), or a value of some other dynamic type. -/
inductive Value where
  | nil : Value
  | grpcClientConn (p : Option ClientConn) : Value
  | str (s : String) : Value
  | int (i : Int) : Value
  | bool (b : Bool) : Value
  deriving DecidableEq, Repr

/-- Go `type SettingKey string`. -/
abbrev SettingKey := String

/-- Constant `GRPCConnSettingKey`. -/
def GRPCConnSettingKey : SettingKey := "GRPCConnSettingKey"

/-! ## Go maps and slices -/

/-- Read `m[k]` on an allocated map. -/
def mapLookup (k : SettingKey) : List (SettingKey × Value) → Option Value
  | [] => none
  | (k', v) :: rest => if k' = k then some v else mapLookup k rest

/-- Assignment `m[k] = v` on an allocated map. -/
def mapStore (k : SettingKey) (v : Value) : List (SettingKey × Value) → List (SettingKey × Value)
  | [] => [(k, v)]
  | (k', v') :: rest => if k' = k then (k, v) :: rest else (k', v') :: mapStore k v rest

/-- Go `len` of a slice; a nil slice has length zero. -/
def len {α : Type} : Option (List α) → Nat
  | none => 0
  | some xs => xs.length

/-- Go `append(s, x)`; the result is never nil. -/
def goAppend {α : Type} (s : Option (List α)) (x : α) : Option (List α) :=
  match s with
  | none => some [x]
  | some xs => some (xs ++ [x])

/-! ## The record -/

/-- Struct `DialSettings`. -/
structure DialSettings where
  Endpoint : String
  DefaultEndpoint : String
  DefaultMTLSEndpoint : String
  Scopes : Option (List String)
  TokenSource : Option TokenSource
  Credentials : Option Credentials
  CredentialsFile : String
  CredentialsJSON : Option (List (Fin 256))
  UserAgent : String
  APIKey : String
  Audiences : Option (List String)
  HTTPClient : Option HTTPClient
  GRPCDialOpts : Option (List DialOption)
  GRPCConnPool : Option ConnPool
  GRPCConnPoolSize : Int
  NoAuth : Bool
  TelemetryDisabled : Bool
  ClientCertSource : Option ClientCertSource
  CustomClaims : Option (List (String × Value))
  SkipValidation : Bool
  ImpersonationConfig : Option ImpersonateConfig
  QuotaProject : String
  RequestReason : String
  m : Option (List (SettingKey × Value))
  deriving DecidableEq, Repr

/-- The zero value `DialSettings{}`. -/
def DialSettings.empty : DialSettings where
  Endpoint := ""
  DefaultEndpoint := ""
  DefaultMTLSEndpoint := ""
  Scopes := none
  TokenSource := none
  Credentials := none
  CredentialsFile := ""
  CredentialsJSON := none
  UserAgent := ""
  APIKey := ""
  Audiences := none
  HTTPClient := none
  GRPCDialOpts := none
  GRPCConnPool := none
  GRPCConnPoolSize := 0
  NoAuth := false
  TelemetryDisabled := false
  ClientCertSource := none
  CustomClaims := none
  SkipValidation := false
  ImpersonationConfig := none
  QuotaProject := ""
  RequestReason := ""
  m := none

/-- Method `SetSetting`: allocate the side-table when it is nil, then store. -/
def DialSettings.SetSetting (ds : DialSettings) (k : SettingKey) (v : Value) : DialSettings :=
  let ds := if ds.m = none then { ds with m := some [] } else ds
  { ds with m := some (mapStore k v (ds.m.getD [])) }

/-- Method `GetSetting`: allocate the side-table when it is nil, then read. The result is the
record after the call and the pair `(v, ok)`; an absent key reads as the nil interface. -/
def DialSettings.GetSetting (ds : DialSettings) (k : SettingKey) : DialSettings × Value × Bool :=
  let ds := if ds.m = none then { ds with m := some [] } else ds
  match mapLookup k (ds.m.getD []) with
  | some v => (ds, v, true)
  | none => (ds, Value.nil, false)

/-- Method `IsSet`: the comma-ok read of the side-table; a nil map has no key. -/
def DialSettings.IsSet (ds : DialSettings) (k : SettingKey) : Bool :=
  match ds.m with
  | none => false
  | some m => (mapLookup k m).isSome

/-- Method `Validate`: `none` is the nil error, `some msg` the error built by `errors.New(msg)`.
The checks are in the order of the source; `nCreds` is counted before the scopes/audiences
check, as there. -/
def DialSettings.Validate (ds : DialSettings) : Option String :=
  if ds.SkipValidation then
    none
  else
    let hasCreds : Bool :=
      ds.APIKey != "" || ds.TokenSource.isSome || ds.CredentialsFile != "" || ds.Credentials.isSome
    if ds.NoAuth && hasCreds then
      some "options.WithoutAuthentication is incompatible with any option that provides credentials"
    else
      let nCreds : Nat := 0
      let nCreds := if ds.Credentials.isSome then nCreds + 1 else nCreds
      let nCreds := if ds.CredentialsJSON.isSome then nCreds + 1 else nCreds
      let nCreds := if ds.CredentialsFile != "" then nCreds + 1 else nCreds
      let nCreds := if ds.APIKey != "" then nCreds + 1 else nCreds
      let nCreds := if ds.TokenSource.isSome then nCreds + 1 else nCreds
      if decide (len ds.Scopes > 0) && decide (len ds.Audiences > 0) then
        some "WithScopes is incompatible with WithAudience"
      else if decide (nCreds > 1) &&
          !(nCreds == 2 && ds.TokenSource.isSome && ds.CredentialsFile != "") then
        some "multiple credential options provided"
      else if ds.IsSet GRPCConnSettingKey && ds.GRPCConnPool.isSome then
        some "WithGRPCConn is incompatible with WithConnPool"
      else if ds.HTTPClient.isSome && ds.GRPCConnPool.isSome then
        some "WithHTTPClient is incompatible with WithConnPool"
      else if ds.HTTPClient.isSome && ds.IsSet GRPCConnSettingKey then
        some "WithHTTPClient is incompatible with WithGRPCConn"
      else if ds.HTTPClient.isSome && ds.GRPCDialOpts.isSome then
        some "WithHTTPClient is incompatible with gRPC dial options"
      else if ds.HTTPClient.isSome && ds.QuotaProject != "" then
        some "WithHTTPClient is incompatible with QuotaProject"
      else if ds.HTTPClient.isSome && ds.RequestReason != "" then
        some "WithHTTPClient is incompatible with RequestReason"
      else if ds.HTTPClient.isSome && ds.ClientCertSource.isSome then
        some "WithHTTPClient is incompatible with WithClientCertSource"
      else if ds.ClientCertSource.isSome &&
          (ds.IsSet GRPCConnSettingKey || ds.GRPCConnPool.isSome ||
            ds.GRPCConnPoolSize != 0 || ds.GRPCDialOpts.isSome) then
        some "WithClientCertSource is currently only supported for HTTP. gRPC settings are incompatible"
      else
        match ds.ImpersonationConfig with
        | some cfg =>
          if len cfg.Scopes == 0 && len ds.Scopes == 0 then
            some "WithImpersonatedCredentials requires scopes being provided"
          else
            none
        | none => none

/-! ## The gRPC setting and the gRPC options -/

/-- Struct `GRPCConnSetting`. -/
structure GRPCConnSetting where
  Value : Option ClientConn
  deriving DecidableEq, Repr

/-- Method `GRPCConnSetting.Apply`: the connection pointer goes into the side-table as an
interface value of dynamic type `*grpc.ClientConn`. -/
def GRPCConnSetting.Apply (s : GRPCConnSetting) (ds : DialSettings) : DialSettings :=
  ds.SetSetting GRPCConnSettingKey (Value.grpcClientConn s.Value)

/-- Function `GetGRPCConnSetting`: the record after the call and the connection pointer, or
`none` when the type assertion `v.(*grpc.ClientConn)` panics. -/
def GetGRPCConnSetting (ds : DialSettings) : Option (DialSettings × Option ClientConn) :=
  match ds.GetSetting GRPCConnSettingKey with
  | (ds1, _, false) => some (ds1, none)
  | (ds1, Value.grpcClientConn p, true) => some (ds1, p)
  | (_, _, true) => none

/-- Function `WithGRPCConn`. -/
def WithGRPCConn (conn : Option ClientConn) : GRPCConnSetting := { Value := conn }

/-- Struct `withGRPCDialOption`. -/
structure withGRPCDialOption where
  opt : DialOption
  deriving DecidableEq, Repr

/-- Method `withGRPCDialOption.Apply`. -/
def withGRPCDialOption.Apply (w : withGRPCDialOption) (o : DialSettings) : DialSettings :=
  { o with GRPCDialOpts := goAppend o.GRPCDialOpts w.opt }

/-- Type `withGRPCConnectionPool`, a named `int`. -/
structure withGRPCConnectionPool where
  size : Int
  deriving DecidableEq, Repr

/-- Method `withGRPCConnectionPool.Apply`. -/
def withGRPCConnectionPool.Apply (w : withGRPCConnectionPool) (o : DialSettings) : DialSettings :=
  { o with GRPCConnPoolSize := w.size }

/-! ## The rule table -/

/-- The twelve rules of `Validate`, in the order of the table. -/
inductive Rule where
  | noAuthCredentials
  | scopesAudiences
  | multipleCredentials
  | connPool
  | httpPool
  | httpConn
  | httpDialOpts
  | httpQuotaProject
  | httpRequestReason
  | httpClientCert
  | clientCertGRPC
  | impersonationScopes
  deriving DecidableEq, Repr

/-- Number of a rule in the table, 1 to 12. -/
def Rule.number : Rule → Nat
  | .noAuthCredentials => 1
  | .scopesAudiences => 2
  | .multipleCredentials => 3
  | .connPool => 4
  | .httpPool => 5
  | .httpConn => 6
  | .httpDialOpts => 7
  | .httpQuotaProject => 8
  | .httpRequestReason => 9
  | .httpClientCert => 10
  | .clientCertGRPC => 11
  | .impersonationScopes => 12

/-- All rules, in table order. -/
def Rule.all : List Rule :=
  [.noAuthCredentials, .scopesAudiences, .multipleCredentials, .connPool, .httpPool, .httpConn,
   .httpDialOpts, .httpQuotaProject, .httpRequestReason, .httpClientCert, .clientCertGRPC,
   .impersonationScopes]

/-- The message of the error `Validate` builds for a rule. -/
def Rule.error : Rule → String
  | .noAuthCredentials =>
    "options.WithoutAuthentication is incompatible with any option that provides credentials"
  | .scopesAudiences => "WithScopes is incompatible with WithAudience"
  | .multipleCredentials => "multiple credential options provided"
  | .connPool => "WithGRPCConn is incompatible with WithConnPool"
  | .httpPool => "WithHTTPClient is incompatible with WithConnPool"
  | .httpConn => "WithHTTPClient is incompatible with WithGRPCConn"
  | .httpDialOpts => "WithHTTPClient is incompatible with gRPC dial options"
  | .httpQuotaProject => "WithHTTPClient is incompatible with QuotaProject"
  | .httpRequestReason => "WithHTTPClient is incompatible with RequestReason"
  | .httpClientCert => "WithHTTPClient is incompatible with WithClientCertSource"
  | .clientCertGRPC =>
    "WithClientCertSource is currently only supported for HTTP. gRPC settings are incompatible"
  | .impersonationScopes => "WithImpersonatedCredentials requires scopes being provided"

/-- The five credential inputs of the record. -/
inductive CredInput where
  | parsedCredentials
  | credentialsJSON
  | credentialsFile
  | apiKey
  | tokenSource
  deriving DecidableEq, Repr

/-- Whether a credential input is present in the record: a pointer, interface or byte slice
is present when it is not nil, a string when it is not empty. -/
def CredInput.present (ds : DialSettings) : CredInput → Bool
  | .parsedCredentials => ds.Credentials.isSome
  | .credentialsJSON => ds.CredentialsJSON.isSome
  | .credentialsFile => ds.CredentialsFile != ""
  | .apiKey => ds.APIKey != ""
  | .tokenSource => ds.TokenSource.isSome

/-- All credential inputs. -/
def CredInput.all : List CredInput :=
  [.parsedCredentials, .credentialsJSON, .credentialsFile, .apiKey, .tokenSource]

/-- The credential inputs present in the record. -/
def presentCreds (ds : DialSettings) : List CredInput :=
  CredInput.all.filter (CredInput.present ds)

/-- Condition of a rule as the rule table words it, with the test of the dial-option list
left open: `dialOptsSet` says when the list counts as set. -/
def Rule.condition (dialOptsSet : DialSettings → Bool) (ds : DialSettings) : Rule → Bool
  | .noAuthCredentials =>
    ds.NoAuth && (CredInput.present ds .apiKey || CredInput.present ds .tokenSource ||
      CredInput.present ds .credentialsFile || CredInput.present ds .parsedCredentials)
  | .scopesAudiences => decide (0 < len ds.Scopes) && decide (0 < len ds.Audiences)
  | .multipleCredentials =>
    decide (1 < (presentCreds ds).length) &&
      !decide (presentCreds ds = [CredInput.credentialsFile, CredInput.tokenSource])
  | .connPool => ds.IsSet GRPCConnSettingKey && ds.GRPCConnPool.isSome
  | .httpPool => ds.HTTPClient.isSome && ds.GRPCConnPool.isSome
  | .httpConn => ds.HTTPClient.isSome && ds.IsSet GRPCConnSettingKey
  | .httpDialOpts => ds.HTTPClient.isSome && dialOptsSet ds
  | .httpQuotaProject => ds.HTTPClient.isSome && ds.QuotaProject != ""
  | .httpRequestReason => ds.HTTPClient.isSome && ds.RequestReason != ""
  | .httpClientCert => ds.HTTPClient.isSome && ds.ClientCertSource.isSome
  | .clientCertGRPC =>
    ds.ClientCertSource.isSome && (ds.IsSet GRPCConnSettingKey || ds.GRPCConnPool.isSome ||
      ds.GRPCConnPoolSize != 0 || dialOptsSet ds)
  | .impersonationScopes =>
    match ds.ImpersonationConfig with
    | some cfg => len cfg.Scopes == 0 && len ds.Scopes == 0
    | none => false

/-- Rule conditions as the rule table states them: the dial-option list counts when it is
non-empty. -/
def Rule.specHolds (ds : DialSettings) (r : Rule) : Bool :=
  Rule.condition (fun d => decide (0 < len d.GRPCDialOpts)) ds r

/-- Rule conditions with the dial-option list counting when it is not nil. -/
def Rule.holds (ds : DialSettings) (r : Rule) : Bool :=
  Rule.condition (fun d => d.GRPCDialOpts.isSome) ds r

/-! ## Sequences of operations on a record -/

/-- An operation that can assign to the record: the two side-table methods that allocate it
and the `Apply` methods of the three gRPC options. -/
inductive RecordOp where
  | setSetting (k : SettingKey) (v : Value)
  | getSetting (k : SettingKey)
  | grpcConn (s : GRPCConnSetting)
  | grpcDialOption (w : withGRPCDialOption)
  | grpcConnectionPool (w : withGRPCConnectionPool)
  deriving DecidableEq, Repr

/-- The record after one operation. -/
def RecordOp.run (ds : DialSettings) : RecordOp → DialSettings
  | .setSetting k v => ds.SetSetting k v
  | .getSetting k => (ds.GetSetting k).1
  | .grpcConn s => s.Apply ds
  | .grpcDialOption w => w.Apply ds
  | .grpcConnectionPool w => w.Apply ds

/-- Whether an operation calls `SetSetting` with key `k`. -/
def RecordOp.writes (k : SettingKey) : RecordOp → Bool
  | .setSetting k' _ => decide (k' = k)
  | .grpcConn _ => decide (GRPCConnSettingKey = k)
  | _ => false

/-- The record after a sequence of operations, applied from left to right. -/
def runOps (ds : DialSettings) (ops : List RecordOp) : DialSettings :=
  ops.foldl RecordOp.run ds

/-! ## Sample records -/

/-- Record with an HTTP client and a dial-option slice that is allocated but has no element. -/
def recHTTPEmptyDialOpts : DialSettings :=
  { DialSettings.empty with HTTPClient := some ⟨1⟩, GRPCDialOpts := some [] }

/-- Record with an HTTP client, an allocated dial-option slice without element and a quota
project. -/
def recHTTPEmptyDialOptsQuota : DialSettings :=
  { DialSettings.empty with
    HTTPClient := some ⟨1⟩, GRPCDialOpts := some [], QuotaProject := "proj-1" }

/-- Record with an HTTP client and a quota project. -/
def recHTTPQuota : DialSettings :=
  { DialSettings.empty with HTTPClient := some ⟨1⟩, QuotaProject := "proj-1" }

/-- Record with a token source and a credentials file, nothing else. -/
def recTokenSourceFile : DialSettings :=
  { DialSettings.empty with TokenSource := some ⟨1⟩, CredentialsFile := "f.json" }

/-- Record with an API key and a credentials file. -/
def recAPIKeyFile : DialSettings :=
  { DialSettings.empty with APIKey := "key", CredentialsFile := "f.json" }

/-- Record that breaks several rules and sets the skip-validation flag. -/
def recSkipConflicts : DialSettings :=
  { DialSettings.empty with
    SkipValidation := true, NoAuth := true, APIKey := "key",
    Scopes := some ["scope-a"], Audiences := some ["aud-a"] }

/-- Record with the no-auth flag and an API key. -/
def recNoAuthAPIKey : DialSettings :=
  { DialSettings.empty with NoAuth := true, APIKey := "key" }

/-- Record with a scope and an audience. -/
def recScopesAudiences : DialSettings :=
  { DialSettings.empty with Scopes := some ["scope-a"], Audiences := some ["aud-a"] }

/-- Record with the no-auth flag, an API key, a scope and an audience. -/
def recNoAuthScopesAudiences : DialSettings :=
  { DialSettings.empty with
    NoAuth := true, APIKey := "key", Scopes := some ["scope-a"], Audiences := some ["aud-a"] }

/-- Record with an HTTP client, as in the second test case. -/
def recHTTP : DialSettings :=
  { DialSettings.empty with HTTPClient := some ⟨1⟩ }

/-- Record with the no-auth flag and raw credentials JSON. -/
def recNoAuthJSON : DialSettings :=
  { DialSettings.empty with NoAuth := true, CredentialsJSON := some [123, 125] }

/-! ## Methods without assignment, with the record threaded through -/

/-- Method `IsSet` as a step on the record: the record after the call and the result. The
body reads `ds.m` and assigns nothing. -/
def DialSettings.IsSetStep (ds : DialSettings) (k : SettingKey) : DialSettings × Bool :=
  match ds.m with
  | none => (ds, false)
  | some m => (ds, (mapLookup k m).isSome)

/-- Method `Validate` as a step on the record: the record after the call and the error. The
record goes through each call of `IsSet`, which `&&` and `||` make only when their left operand
does not decide the result. -/
def DialSettings.ValidateStep (ds : DialSettings) : DialSettings × Option String :=
  if ds.SkipValidation then
    (ds, none)
  else
    let hasCreds : Bool :=
      ds.APIKey != "" || ds.TokenSource.isSome || ds.CredentialsFile != "" || ds.Credentials.isSome
    if ds.NoAuth && hasCreds then
      (ds, some
        "options.WithoutAuthentication is incompatible with any option that provides credentials")
    else
      let nCreds : Nat := 0
      let nCreds := if ds.Credentials.isSome then nCreds + 1 else nCreds
      let nCreds := if ds.CredentialsJSON.isSome then nCreds + 1 else nCreds
      let nCreds := if ds.CredentialsFile != "" then nCreds + 1 else nCreds
      let nCreds := if ds.APIKey != "" then nCreds + 1 else nCreds
      let nCreds := if ds.TokenSource.isSome then nCreds + 1 else nCreds
      if decide (len ds.Scopes > 0) && decide (len ds.Audiences > 0) then
        (ds, some "WithScopes is incompatible with WithAudience")
      else if decide (nCreds > 1) &&
          !(nCreds == 2 && ds.TokenSource.isSome && ds.CredentialsFile != "") then
        (ds, some "multiple credential options provided")
      else
        let c4 := ds.IsSetStep GRPCConnSettingKey
        let ds := c4.1
        if c4.2 && ds.GRPCConnPool.isSome then
          (ds, some "WithGRPCConn is incompatible with WithConnPool")
        else if ds.HTTPClient.isSome && ds.GRPCConnPool.isSome then
          (ds, some "WithHTTPClient is incompatible with WithConnPool")
        else
          let c6 := if ds.HTTPClient.isSome then ds.IsSetStep GRPCConnSettingKey else (ds, false)
          let ds := c6.1
          if c6.2 then
            (ds, some "WithHTTPClient is incompatible with WithGRPCConn")
          else if ds.HTTPClient.isSome && ds.GRPCDialOpts.isSome then
            (ds, some "WithHTTPClient is incompatible with gRPC dial options")
          else if ds.HTTPClient.isSome && ds.QuotaProject != "" then
            (ds, some "WithHTTPClient is incompatible with QuotaProject")
          else if ds.HTTPClient.isSome && ds.RequestReason != "" then
            (ds, some "WithHTTPClient is incompatible with RequestReason")
          else if ds.HTTPClient.isSome && ds.ClientCertSource.isSome then
            (ds, some "WithHTTPClient is incompatible with WithClientCertSource")
          else
            let c11 :=
              if ds.ClientCertSource.isSome then
                let c := ds.IsSetStep GRPCConnSettingKey
                (c.1, c.2 || c.1.GRPCConnPool.isSome || c.1.GRPCConnPoolSize != 0 ||
                  c.1.GRPCDialOpts.isSome)
              else (ds, false)
            let ds := c11.1
            if c11.2 then
              (ds, some
                "WithClientCertSource is currently only supported for HTTP. gRPC settings are incompatible")
            else
              match ds.ImpersonationConfig with
              | some cfg =>
                if len cfg.Scopes == 0 && len ds.Scopes == 0 then
                  (ds, some "WithImpersonatedCredentials requires scopes being provided")
                else
                  (ds, none)
              | none => (ds, none)

/-! ## Client options -/

/-- Interface `ClientOption`, with the three implementations of the gRPC options. -/
inductive ClientOption where
  | grpcConn (s : GRPCConnSetting)
  | dialOption (w : withGRPCDialOption)
  | connectionPool (w : withGRPCConnectionPool)
  deriving DecidableEq, Repr

/-- Method `Apply` of a `ClientOption`, dispatched on the implementation. -/
def ClientOption.Apply (o : ClientOption) (ds : DialSettings) : DialSettings :=
  match o with
  | .grpcConn s => s.Apply ds
  | .dialOption w => w.Apply ds
  | .connectionPool w => w.Apply ds

/-- Function `WithGRPCDialOption`. -/
def WithGRPCDialOption (opt : DialOption) : withGRPCDialOption := { opt := opt }

/-- Function `WithGRPCConnectionPool`. -/
def WithGRPCConnectionPool (size : Int) : withGRPCConnectionPool := { size := size }

/-- The record after the options of a list are applied in order, as the loop
`for _, opt := range opts { opt.Apply(&ds) }` does. -/
def applyOptions (ds : DialSettings) (opts : List ClientOption) : DialSettings :=
  opts.foldl (fun d o => o.Apply d) ds

/-! ## Lemmas on the side-table -/

theorem mapLookup_mapStore_self (k : SettingKey) (v : Value) (m : List (SettingKey × Value)) :
    mapLookup k (mapStore k v m) = some v := by
  induction m with
  | nil => simp [mapStore, mapLookup]
  | cons e rest ih =>
    obtain ⟨k', v'⟩ := e
    by_cases hk : k' = k
    · simp [mapStore, mapLookup, hk]
    · simp [mapStore, mapLookup, hk, ih]

theorem mapLookup_mapStore_other (k k' : SettingKey) (v : Value) (m : List (SettingKey × Value))
    (hne : k' ≠ k) : mapLookup k' (mapStore k v m) = mapLookup k' m := by
  induction m with
  | nil => simp [mapStore, mapLookup, hne.symm]
  | cons e rest ih =>
    obtain ⟨k₀, v₀⟩ := e
    by_cases hk : k₀ = k
    · subst hk
      simp [mapStore, mapLookup, hne.symm]
    · by_cases hk' : k₀ = k'
      · subst hk'
        simp [mapStore, mapLookup, hk]
      · simp [mapStore, mapLookup, hk, hk', ih]

/-! ## Lemmas on the credential count -/

theorem multipleCredentials_eq (ds : DialSettings) :
    (let nCreds : Nat := 0
     let nCreds := if ds.Credentials.isSome then nCreds + 1 else nCreds
     let nCreds := if ds.CredentialsJSON.isSome then nCreds + 1 else nCreds
     let nCreds := if ds.CredentialsFile != "" then nCreds + 1 else nCreds
     let nCreds := if ds.APIKey != "" then nCreds + 1 else nCreds
     let nCreds := if ds.TokenSource.isSome then nCreds + 1 else nCreds
     decide (nCreds > 1) && !(nCreds == 2 && ds.TokenSource.isSome && ds.CredentialsFile != ""))
      = Rule.holds ds .multipleCredentials := by
  cases h1 : ds.Credentials.isSome <;> cases h2 : ds.CredentialsJSON.isSome <;>
    cases h3 : (ds.CredentialsFile != "") <;> cases h4 : (ds.APIKey != "") <;>
    cases h5 : ds.TokenSource.isSome <;>
    simp only [Rule.holds, Rule.condition, presentCreds, CredInput.all, CredInput.present,
      List.filter, h1, h2, h3, h4, h5] <;> decide

theorem validate_eq_find (ds : DialSettings) (h : ds.SkipValidation = false) :
    ds.Validate = (Rule.all.find? (Rule.holds ds)).map Rule.error := by
  have hm := multipleCredentials_eq ds
  have e1 : (ds.NoAuth && (ds.APIKey != "" || ds.TokenSource.isSome || ds.CredentialsFile != "" ||
      ds.Credentials.isSome)) = Rule.holds ds .noAuthCredentials := rfl
  have e2 : (decide (len ds.Scopes > 0) && decide (len ds.Audiences > 0))
      = Rule.holds ds .scopesAudiences := rfl
  have e4 : (ds.IsSet GRPCConnSettingKey && ds.GRPCConnPool.isSome) = Rule.holds ds .connPool := rfl
  have e5 : (ds.HTTPClient.isSome && ds.GRPCConnPool.isSome) = Rule.holds ds .httpPool := rfl
  have e6 : (ds.HTTPClient.isSome && ds.IsSet GRPCConnSettingKey) = Rule.holds ds .httpConn := rfl
  have e7 : (ds.HTTPClient.isSome && ds.GRPCDialOpts.isSome) = Rule.holds ds .httpDialOpts := rfl
  have e8 : (ds.HTTPClient.isSome && ds.QuotaProject != "") = Rule.holds ds .httpQuotaProject := rfl
  have e9 : (ds.HTTPClient.isSome && ds.RequestReason != "")
      = Rule.holds ds .httpRequestReason := rfl
  have e10 : (ds.HTTPClient.isSome && ds.ClientCertSource.isSome)
      = Rule.holds ds .httpClientCert := rfl
  have e11 : (ds.ClientCertSource.isSome && (ds.IsSet GRPCConnSettingKey || ds.GRPCConnPool.isSome ||
      ds.GRPCConnPoolSize != 0 || ds.GRPCDialOpts.isSome)) = Rule.holds ds .clientCertGRPC := rfl
  have e12 : (match ds.ImpersonationConfig with
      | some cfg =>
        if (len cfg.Scopes == 0 && len ds.Scopes == 0) = true then
          some "WithImpersonatedCredentials requires scopes being provided"
        else none
      | none => none)
      = if Rule.holds ds .impersonationScopes = true then
          some "WithImpersonatedCredentials requires scopes being provided" else none := by
    cases hc : ds.ImpersonationConfig <;> simp [Rule.holds, Rule.condition, hc]
  unfold DialSettings.Validate
  simp only [h, Bool.false_eq_true, if_false]
  simp only [] at hm ⊢
  rw [hm, e1, e2, e4, e5, e6, e7, e8, e9, e10, e11, e12]
  simp only [Rule.all, List.find?]
  clear hm e1 e2 e4 e5 e6 e7 e8 e9 e10 e11 e12
  rcases Bool.eq_false_or_eq_true (Rule.holds ds .noAuthCredentials) with c | c <;>
    simp only [c, if_true, Option.map, Rule.error, Bool.false_eq_true, if_false]
  rcases Bool.eq_false_or_eq_true (Rule.holds ds .scopesAudiences) with c | c <;>
    simp only [c, if_true, Option.map, Rule.error, Bool.false_eq_true, if_false]
  rcases Bool.eq_false_or_eq_true (Rule.holds ds .multipleCredentials) with c | c <;>
    simp only [c, if_true, Option.map, Rule.error, Bool.false_eq_true, if_false]
  rcases Bool.eq_false_or_eq_true (Rule.holds ds .connPool) with c | c <;>
    simp only [c, if_true, Option.map, Rule.error, Bool.false_eq_true, if_false]
  rcases Bool.eq_false_or_eq_true (Rule.holds ds .httpPool) with c | c <;>
    simp only [c, if_true, Option.map, Rule.error, Bool.false_eq_true, if_false]
  rcases Bool.eq_false_or_eq_true (Rule.holds ds .httpConn) with c | c <;>
    simp only [c, if_true, Option.map, Rule.error, Bool.false_eq_true, if_false]
  rcases Bool.eq_false_or_eq_true (Rule.holds ds .httpDialOpts) with c | c <;>
    simp only [c, if_true, Option.map, Rule.error, Bool.false_eq_true, if_false]
  rcases Bool.eq_false_or_eq_true (Rule.holds ds .httpQuotaProject) with c | c <;>
    simp only [c, if_true, Option.map, Rule.error, Bool.false_eq_true, if_false]
  rcases Bool.eq_false_or_eq_true (Rule.holds ds .httpRequestReason) with c | c <;>
    simp only [c, if_true, Option.map, Rule.error, Bool.false_eq_true, if_false]
  rcases Bool.eq_false_or_eq_true (Rule.holds ds .httpClientCert) with c | c <;>
    simp only [c, if_true, Option.map, Rule.error, Bool.false_eq_true, if_false]
  rcases Bool.eq_false_or_eq_true (Rule.holds ds .clientCertGRPC) with c | c <;>
    simp only [c, if_true, Option.map, Rule.error, Bool.false_eq_true, if_false]
  rcases Bool.eq_false_or_eq_true (Rule.holds ds .impersonationScopes) with c | c <;>
    simp only [c, if_true, Option.map, Rule.error, Bool.false_eq_true, if_false]

/-! ## Lemmas on `Validate` -/

theorem mem_rule_all (r : Rule) : r ∈ Rule.all := by
  cases r <;> simp [Rule.all]

theorem validate_eq_none_iff (ds : DialSettings) (h : ds.SkipValidation = false) :
    ds.Validate = none ↔ ∀ r, Rule.holds ds r = false := by
  rw [validate_eq_find ds h, Option.map_eq_none', List.find?_eq_none]
  constructor
  · intro hall r
    simpa using hall r (mem_rule_all r)
  · intro hall r _
    simp [hall r]

theorem validate_ne_none_of_holds (ds : DialSettings) (h : ds.SkipValidation = false) (r : Rule)
    (hr : Rule.holds ds r = true) : ds.Validate ≠ none := by
  intro hv
  have := (validate_eq_none_iff ds h).1 hv r
  simp [hr] at this

theorem isSet_setSetting_self (ds : DialSettings) (k : SettingKey) (v : Value) :
    (ds.SetSetting k v).IsSet k = true := by
  cases hm : ds.m <;>
    simp [DialSettings.SetSetting, DialSettings.IsSet, hm, mapLookup_mapStore_self]

theorem getSetting_found (ds : DialSettings) (k : SettingKey) :
    (ds.GetSetting k).2.2 = ds.IsSet k := by
  cases hm : ds.m with
  | none => simp [DialSettings.GetSetting, DialSettings.IsSet, hm, mapLookup]
  | some m =>
    cases hl : mapLookup k m <;> simp [DialSettings.GetSetting, DialSettings.IsSet, hm, hl]

theorem holds_eq_specHolds (ds : DialSettings)
    (hd : ds.GRPCDialOpts = none ∨ 0 < len ds.GRPCDialOpts) (r : Rule) :
    Rule.holds ds r = Rule.specHolds ds r := by
  have hset : ds.GRPCDialOpts.isSome = decide (0 < len ds.GRPCDialOpts) := by
    rcases hd with hd | hd
    · simp [hd, len]
    · cases hopts : ds.GRPCDialOpts with
      | none => simp [hopts, len] at hd
      | some xs => simpa [hopts, len] using hd
  cases r <;> simp only [Rule.holds, Rule.specHolds, Rule.condition, hset]

theorem mem_presentCreds (ds : DialSettings) (c : CredInput) :
    c ∈ presentCreds ds ↔ CredInput.present ds c = true := by
  unfold presentCreds
  rw [List.mem_filter]
  constructor
  · exact fun hc => hc.2
  · intro hc
    refine ⟨?_, hc⟩
    cases c <;> simp [CredInput.all]

theorem one_lt_length_of_two_mem {α : Type} (xs : List α) (a b : α) (hne : a ≠ b)
    (ha : a ∈ xs) (hb : b ∈ xs) : 1 < xs.length := by
  match xs, ha, hb with
  | [], ha, _ => simp at ha
  | [x], ha, hb =>
    simp only [List.mem_singleton] at ha hb
    exact absurd (ha.trans hb.symm) hne
  | _ :: _ :: _, _, _ => simp

theorem getSetting_of_not_isSet (ds : DialSettings) (k : SettingKey)
    (h : ds.IsSet k = false) : (ds.GetSetting k).2 = (Value.nil, false) := by
  cases hm : ds.m with
  | none => simp [DialSettings.GetSetting, hm, mapLookup]
  | some m =>
    cases hl : mapLookup k m with
    | none => simp [DialSettings.GetSetting, hm, hl]
    | some v => simp [DialSettings.IsSet, hm, hl] at h

theorem getSetting_fst (ds : DialSettings) (k : SettingKey) :
    (ds.GetSetting k).1 = if ds.m = none then { ds with m := some [] } else ds := by
  unfold DialSettings.GetSetting
  simp only []
  split <;> rfl

theorem isSet_setSetting_other (ds : DialSettings) (k k' : SettingKey) (v : Value)
    (hne : k' ≠ k) : (ds.SetSetting k v).IsSet k' = ds.IsSet k' := by
  cases hm : ds.m <;>
    simp [DialSettings.SetSetting, DialSettings.IsSet, hm, mapLookup_mapStore_other _ _ _ _ hne,
      mapLookup, mapStore, hne.symm]

theorem isSet_run_of_not_writes (ds : DialSettings) (op : RecordOp) (k : SettingKey)
    (h : op.writes k = false) : (op.run ds).IsSet k = ds.IsSet k := by
  cases op with
  | setSetting k' v =>
    have hne : k ≠ k' := by
      intro he
      simp [RecordOp.writes, he] at h
    exact isSet_setSetting_other ds k' k v hne
  | getSetting k' =>
    cases hm : ds.m <;>
      simp [RecordOp.run, getSetting_fst, DialSettings.IsSet, hm, mapLookup]
  | grpcConn s =>
    have hne : k ≠ GRPCConnSettingKey := by
      intro he
      simp [RecordOp.writes, he] at h
    exact isSet_setSetting_other ds GRPCConnSettingKey k _ hne
  | grpcDialOption w => rfl
  | grpcConnectionPool w => rfl

theorem isSet_runOps_of_not_writes (ops : List RecordOp) (ds : DialSettings) (k : SettingKey)
    (h : ∀ op ∈ ops, RecordOp.writes k op = false) : (runOps ds ops).IsSet k = ds.IsSet k := by
  induction ops generalizing ds with
  | nil => rfl
  | cons op rest ih =>
    have hrest : ∀ o ∈ rest, RecordOp.writes k o = false :=
      fun o ho => h o (List.mem_cons_of_mem _ ho)
    have hop : RecordOp.writes k op = false := h op (List.mem_cons_self _ _)
    show (runOps (op.run ds) rest).IsSet k = ds.IsSet k
    rw [ih (op.run ds) hrest, isSet_run_of_not_writes ds op k hop]

theorem setSetting_skipValidation (ds : DialSettings) (k : SettingKey) (v : Value) :
    (ds.SetSetting k v).SkipValidation = ds.SkipValidation := by
  cases hm : ds.m <;> simp [DialSettings.SetSetting, hm]

theorem setSetting_HTTPClient (ds : DialSettings) (k : SettingKey) (v : Value) :
    (ds.SetSetting k v).HTTPClient = ds.HTTPClient := by
  cases hm : ds.m <;> simp [DialSettings.SetSetting, hm]

theorem setSetting_ClientCertSource (ds : DialSettings) (k : SettingKey) (v : Value) :
    (ds.SetSetting k v).ClientCertSource = ds.ClientCertSource := by
  cases hm : ds.m <;> simp [DialSettings.SetSetting, hm]


/-! ## Claims on `Validate` -/

/-- C1 (as amended): with the skip-validation flag unset, `Validate` returns nil exactly when
none of the twelve rule conditions holds, where rules 7 and 11 test the dial-option list for
being not nil; on a record whose dial-option list is nil or has an element, that is the rule
table as written. -/
theorem validate_nil_iff_no_rule_holds (ds : DialSettings) (h : ds.SkipValidation = false) :
    (ds.Validate = none ↔ ∀ r : Rule, Rule.holds ds r = false) ∧
      ((ds.GRPCDialOpts = none ∨ 0 < len ds.GRPCDialOpts) →
        (ds.Validate = none ↔ ∀ r : Rule, Rule.specHolds ds r = false)) := by
  refine ⟨validate_eq_none_iff ds h, fun hd => ?_⟩
  rw [validate_eq_none_iff ds h]
  constructor
  · intro hall r
    rw [← holds_eq_specHolds ds hd r]
    exact hall r
  · intro hall r
    rw [holds_eq_specHolds ds hd r]
    exact hall r

/-- Witness of C1 at the record with an HTTP client and a quota project. -/
theorem validate_nil_iff_no_rule_holds_witness :
    recHTTPQuota.SkipValidation = false ∧
      (recHTTPQuota.Validate = none ↔ ∀ r : Rule, Rule.holds recHTTPQuota r = false) ∧
      recHTTPQuota.GRPCDialOpts = none ∧
      (recHTTPQuota.Validate = none ↔ ∀ r : Rule, Rule.specHolds recHTTPQuota r = false) :=
  ⟨rfl, (validate_nil_iff_no_rule_holds recHTTPQuota rfl).1, rfl,
    (validate_nil_iff_no_rule_holds recHTTPQuota rfl).2 (Or.inl rfl)⟩

/-- C1 fails as stated: with an HTTP client and a dial-option slice that is allocated but
empty, no rule condition of the table holds, and `Validate` returns the error of rule 7. -/
theorem validate_nil_iff_spec_rules_counterexample :
    recHTTPEmptyDialOpts.SkipValidation = false ∧
      (∀ r : Rule, Rule.specHolds recHTTPEmptyDialOpts r = false) ∧
      recHTTPEmptyDialOpts.Validate = some "WithHTTPClient is incompatible with gRPC dial options" ∧
      ¬ (recHTTPEmptyDialOpts.Validate = none ↔
          ∀ r : Rule, Rule.specHolds recHTTPEmptyDialOpts r = false) := by
  have hall : ∀ r : Rule, Rule.specHolds recHTTPEmptyDialOpts r = false := by
    intro r; cases r <;> rfl
  have hv : recHTTPEmptyDialOpts.Validate
      = some "WithHTTPClient is incompatible with gRPC dial options" := rfl
  refine ⟨rfl, hall, hv, ?_⟩
  intro hiff
  have := hiff.2 hall
  rw [hv] at this
  exact Option.noConfusion this

/-- C2 (as amended): with the skip-validation flag unset, when rule `r` holds and no rule
with a lower number holds, `Validate` returns the error of `r`; rules 7 and 11 test the
dial-option list for being not nil. -/
theorem validate_returns_lowest_rule (ds : DialSettings) (h : ds.SkipValidation = false)
    (r : Rule) (hr : Rule.holds ds r = true)
    (hmin : ∀ r' : Rule, r'.number < r.number → Rule.holds ds r' = false) :
    ds.Validate = some r.error := by
  rw [validate_eq_find ds h]
  have h1 := hmin .noAuthCredentials
  have h2 := hmin .scopesAudiences
  have h3 := hmin .multipleCredentials
  have h4 := hmin .connPool
  have h5 := hmin .httpPool
  have h6 := hmin .httpConn
  have h7 := hmin .httpDialOpts
  have h8 := hmin .httpQuotaProject
  have h9 := hmin .httpRequestReason
  have h10 := hmin .httpClientCert
  have h11 := hmin .clientCertGRPC
  cases r <;> simp [Rule.number] at h1 h2 h3 h4 h5 h6 h7 h8 h9 h10 h11 <;>
    simp [Rule.all, List.find?, *]

/-- Witness of C2: an HTTP client with quota project `proj-1` gets the error of rule 8. -/
theorem validate_returns_lowest_rule_witness :
    recHTTPQuota.SkipValidation = false ∧
      Rule.holds recHTTPQuota .httpQuotaProject = true ∧
      (∀ r' : Rule, r'.number < Rule.httpQuotaProject.number →
        Rule.holds recHTTPQuota r' = false) ∧
      recHTTPQuota.Validate = some "WithHTTPClient is incompatible with QuotaProject" := by
  have hmin : ∀ r' : Rule, r'.number < Rule.httpQuotaProject.number →
      Rule.holds recHTTPQuota r' = false := by
    intro r' hlt
    cases r' <;> first | rfl | exact absurd hlt (by decide)
  exact ⟨rfl, rfl, hmin, validate_returns_lowest_rule recHTTPQuota rfl .httpQuotaProject rfl hmin⟩

/-- C2 fails as stated: with an HTTP client, an allocated empty dial-option slice and a quota
project, the lowest rule of the table whose condition holds is rule 8, and `Validate` returns
the error of rule 7. -/
theorem validate_returns_lowest_spec_rule_counterexample :
    recHTTPEmptyDialOptsQuota.SkipValidation = false ∧
      Rule.specHolds recHTTPEmptyDialOptsQuota .httpQuotaProject = true ∧
      (∀ r' : Rule, r'.number < Rule.httpQuotaProject.number →
        Rule.specHolds recHTTPEmptyDialOptsQuota r' = false) ∧
      recHTTPEmptyDialOptsQuota.Validate = some Rule.httpDialOpts.error ∧
      recHTTPEmptyDialOptsQuota.Validate ≠ some Rule.httpQuotaProject.error := by
  refine ⟨rfl, rfl, ?_, rfl, by decide⟩
  intro r' hlt
  cases r' <;> first | rfl | exact absurd hlt (by decide)

/-- C3: with the skip-validation flag set, `Validate` returns nil. -/
theorem validate_skip (ds : DialSettings) (h : ds.SkipValidation = true) :
    ds.Validate = none := by
  simp [DialSettings.Validate, h]

/-- Witness of C3 at a record that sets the flag and breaks rules 1 and 2. -/
theorem validate_skip_witness :
    recSkipConflicts.SkipValidation = true ∧ recSkipConflicts.Validate = none :=
  ⟨rfl, validate_skip recSkipConflicts rfl⟩

/-- C4: with the skip-validation flag unset, two distinct credential inputs present and the
set of present inputs not exactly token source and credentials file, `Validate` returns an
error; and the record holding only a token source and a credentials file validates. -/
theorem validate_credential_forms :
    (∀ (ds : DialSettings) (c₁ c₂ : CredInput), ds.SkipValidation = false → c₁ ≠ c₂ →
        CredInput.present ds c₁ = true → CredInput.present ds c₂ = true →
        ¬ (∀ c, CredInput.present ds c = true ↔ (c = .tokenSource ∨ c = .credentialsFile)) →
        ds.Validate ≠ none) ∧
    (∀ (ts : TokenSource) (file : String), file ≠ "" →
        ({ DialSettings.empty with TokenSource := some ts, CredentialsFile := file }
          : DialSettings).Validate = none) := by
  constructor
  · intro ds c₁ c₂ hskip hne hp₁ hp₂ hnot
    apply validate_ne_none_of_holds ds hskip .multipleCredentials
    have hlen : 1 < (presentCreds ds).length :=
      one_lt_length_of_two_mem _ c₁ c₂ hne ((mem_presentCreds ds c₁).2 hp₁)
        ((mem_presentCreds ds c₂).2 hp₂)
    have hlist : presentCreds ds ≠ [CredInput.credentialsFile, CredInput.tokenSource] := by
      intro heq
      apply hnot
      intro c
      rw [← mem_presentCreds, heq]
      cases c <;> simp
    simp [Rule.holds, Rule.condition, hlen, hlist]
  · intro ts file hfile
    have hb : (file != "") = true := by simp [hfile]
    rw [validate_eq_none_iff _ rfl]
    intro r
    cases r <;>
      simp [Rule.holds, Rule.condition, DialSettings.empty, DialSettings.IsSet, len,
        CredInput.present, presentCreds, CredInput.all, List.filter, hb]

/-- Witness of C4: an API key next to a credentials file is rejected, and a token source next
to the file `f.json` is accepted. -/
theorem validate_credential_forms_witness :
    recAPIKeyFile.Validate ≠ none ∧ recTokenSourceFile.Validate = none :=
  ⟨validate_credential_forms.1 recAPIKeyFile .apiKey .credentialsFile rfl (by decide) rfl rfl
      (fun hall => absurd ((hall .apiKey).1 rfl) (by decide)),
    validate_credential_forms.2 ⟨1⟩ "f.json" (by decide)⟩

/-- C5: with the skip-validation flag unset, the no-auth flag set and one of API key, token
source, credentials file or parsed credentials present, `Validate` returns the no-auth
conflict error. -/
theorem validate_noAuth_conflict (ds : DialSettings) (h : ds.SkipValidation = false)
    (hn : ds.NoAuth = true)
    (hc : ds.APIKey ≠ "" ∨ ds.TokenSource ≠ none ∨ ds.CredentialsFile ≠ "" ∨
      ds.Credentials ≠ none) :
    ds.Validate = some
      "options.WithoutAuthentication is incompatible with any option that provides credentials" := by
  have hcreds : (ds.APIKey != "" || ds.TokenSource.isSome || ds.CredentialsFile != "" ||
      ds.Credentials.isSome) = true := by
    rcases hc with hc | hc | hc | hc
    · simp [hc]
    · simp [Option.isSome_iff_ne_none.2 hc]
    · simp [hc]
    · simp [Option.isSome_iff_ne_none.2 hc]
  unfold DialSettings.Validate
  simp only [h, hn, hcreds, Bool.false_eq_true, if_false, Bool.and_self, if_true]

/-- Witness of C5 at the record with the no-auth flag and an API key. -/
theorem validate_noAuth_conflict_witness :
    recNoAuthAPIKey.SkipValidation = false ∧ recNoAuthAPIKey.NoAuth = true ∧
      recNoAuthAPIKey.APIKey ≠ "" ∧
      recNoAuthAPIKey.Validate = some
        "options.WithoutAuthentication is incompatible with any option that provides credentials" :=
  ⟨rfl, rfl, by decide,
    validate_noAuth_conflict recNoAuthAPIKey rfl rfl (Or.inl (by decide))⟩

/-- C6 (as amended): with the skip-validation flag unset, a non-empty scope list, a non-empty
audience list and the no-auth conflict of rule 1 absent, `Validate` returns the
scopes/audiences conflict error. -/
theorem validate_scopes_audiences_conflict (ds : DialSettings) (h : ds.SkipValidation = false)
    (hs : 0 < len ds.Scopes) (ha : 0 < len ds.Audiences)
    (hno : ds.NoAuth = false ∨
      (ds.APIKey = "" ∧ ds.TokenSource = none ∧ ds.CredentialsFile = "" ∧ ds.Credentials = none)) :
    ds.Validate = some "WithScopes is incompatible with WithAudience" := by
  have h1 : (ds.NoAuth && (ds.APIKey != "" || ds.TokenSource.isSome || ds.CredentialsFile != "" ||
      ds.Credentials.isSome)) = false := by
    rcases hno with hno | ⟨k1, k2, k3, k4⟩
    · simp [hno]
    · simp [k1, k2, k3, k4]
  unfold DialSettings.Validate
  simp only [h, h1, Bool.false_eq_true, if_false]
  simp [hs, ha]

/-- Witness of C6 at the record with one scope and one audience. -/
theorem validate_scopes_audiences_conflict_witness :
    recScopesAudiences.SkipValidation = false ∧ 0 < len recScopesAudiences.Scopes ∧
      0 < len recScopesAudiences.Audiences ∧ recScopesAudiences.NoAuth = false ∧
      recScopesAudiences.Validate = some "WithScopes is incompatible with WithAudience" :=
  ⟨rfl, by decide, by decide, rfl,
    validate_scopes_audiences_conflict recScopesAudiences rfl (by decide) (by decide)
      (Or.inl rfl)⟩

/-- C6 fails as stated: with the no-auth flag and an API key next to a scope and an audience,
`Validate` returns the no-auth conflict error, not the scopes/audiences one. -/
theorem validate_scopes_audiences_counterexample :
    recNoAuthScopesAudiences.SkipValidation = false ∧
      0 < len recNoAuthScopesAudiences.Scopes ∧ 0 < len recNoAuthScopesAudiences.Audiences ∧
      recNoAuthScopesAudiences.Validate = some
        "options.WithoutAuthentication is incompatible with any option that provides credentials" ∧
      recNoAuthScopesAudiences.Validate ≠ some "WithScopes is incompatible with WithAudience" :=
  ⟨rfl, by decide, by decide, rfl, by decide⟩

/-- C7: with the skip-validation flag unset and the HTTP client or the client-certificate
source set, `Validate` after `GRPCConnSetting{conn}.Apply` returns an error, for every
connection pointer `conn`, nil included. -/
theorem validate_after_grpcConn_conflict (conn : Option ClientConn) (ds : DialSettings)
    (h : ds.SkipValidation = false)
    (hc : ds.HTTPClient ≠ none ∨ ds.ClientCertSource ≠ none) :
    ((GRPCConnSetting.mk conn).Apply ds).Validate ≠ none := by
  have hskip : ((GRPCConnSetting.mk conn).Apply ds).SkipValidation = false := by
    rw [GRPCConnSetting.Apply, setSetting_skipValidation, h]
  have hset : ((GRPCConnSetting.mk conn).Apply ds).IsSet GRPCConnSettingKey = true :=
    isSet_setSetting_self ds GRPCConnSettingKey _
  rcases hc with hc | hc
  · apply validate_ne_none_of_holds _ hskip .httpConn
    have hh : ((GRPCConnSetting.mk conn).Apply ds).HTTPClient.isSome = true := by
      rw [GRPCConnSetting.Apply, setSetting_HTTPClient]
      exact Option.isSome_iff_ne_none.2 hc
    simp [Rule.holds, Rule.condition, hh, hset]
  · apply validate_ne_none_of_holds _ hskip .clientCertGRPC
    have hh : ((GRPCConnSetting.mk conn).Apply ds).ClientCertSource.isSome = true := by
      rw [GRPCConnSetting.Apply, setSetting_ClientCertSource]
      exact Option.isSome_iff_ne_none.2 hc
    simp [Rule.holds, Rule.condition, hh, hset]

/-- Witness of C7: the record with an HTTP client, after a nil connection is applied. -/
theorem validate_after_grpcConn_conflict_witness :
    recHTTP.SkipValidation = false ∧ recHTTP.HTTPClient ≠ none ∧
      ((GRPCConnSetting.mk none).Apply recHTTP).Validate ≠ none :=
  ⟨rfl, by decide, validate_after_grpcConn_conflict none recHTTP rfl (Or.inl (by decide))⟩

/-- C8: `Validate` returns nil on the empty record, and on the empty record after
`GRPCConnSetting{conn}.Apply` for every connection pointer `conn`. -/
theorem validate_empty_and_grpcConn :
    DialSettings.empty.Validate = none ∧
      ∀ conn : Option ClientConn,
        ((GRPCConnSetting.mk conn).Apply DialSettings.empty).Validate = none :=
  ⟨rfl, fun _ => rfl⟩

/-! ## Claims on the side-table -/

/-- C9: after `SetSetting(k, v1)`, `IsSet(k)` is true and `GetSetting(k)` returns `(v1, true)`;
after a second `SetSetting(k, v2)`, `GetSetting(k)` returns `(v2, true)`. -/
theorem getSetting_after_setSetting (ds : DialSettings) (k : SettingKey) (v1 v2 : Value) :
    (ds.SetSetting k v1).IsSet k = true ∧
      ((ds.SetSetting k v1).GetSetting k).2 = (v1, true) ∧
      (((ds.SetSetting k v1).SetSetting k v2).GetSetting k).2 = (v2, true) := by
  have key : ∀ (d : DialSettings) (v : Value), ((d.SetSetting k v).GetSetting k).2 = (v, true) := by
    intro d v
    cases hm : d.m <;>
      simp [DialSettings.SetSetting, DialSettings.GetSetting, hm, mapLookup_mapStore_self]
  exact ⟨isSet_setSetting_self ds k v1, key ds v1, key _ v2⟩

/-- C10: the found-flag of `GetSetting(k)` equals `IsSet(k)` on every record, with the
side-table nil or allocated; and on a record reached from one with a nil side-table by
operations none of which writes `k`, `GetSetting(k)` returns `(nil, false)` and `IsSet(k)` is
false, the empty record included. -/
theorem getSetting_found_eq_isSet (ds : DialSettings) (k : SettingKey) :
    (ds.GetSetting k).2.2 = ds.IsSet k ∧
      (∀ (ds₀ : DialSettings) (ops : List RecordOp), ds₀.m = none →
        (∀ op ∈ ops, RecordOp.writes k op = false) → ds = runOps ds₀ ops →
        (ds.GetSetting k).2 = (Value.nil, false) ∧ ds.IsSet k = false) ∧
      (DialSettings.empty.GetSetting k).2 = (Value.nil, false) ∧
      DialSettings.empty.IsSet k = false := by
  refine ⟨getSetting_found ds k, ?_, rfl, rfl⟩
  intro ds₀ ops h₀ hops hds
  have hset : ds.IsSet k = false := by
    rw [hds, isSet_runOps_of_not_writes ops ds₀ k hops]
    simp [DialSettings.IsSet, h₀]
  exact ⟨getSetting_of_not_isSet ds k hset, hset⟩

/-- Witness of C10: after a read of key `a`, a write of key `b` and a dial option, key `a`
is still unset. -/
theorem getSetting_found_eq_isSet_witness :
    ((runOps DialSettings.empty
        [.getSetting "a", .setSetting "b" (.int 1), .grpcDialOption ⟨⟨7⟩⟩]).GetSetting "a").2
      = (Value.nil, false) ∧
    (runOps DialSettings.empty
        [.getSetting "a", .setSetting "b" (.int 1), .grpcDialOption ⟨⟨7⟩⟩]).IsSet "a" = false :=
  (getSetting_found_eq_isSet _ "a").2.1 DialSettings.empty
    [.getSetting "a", .setSetting "b" (.int 1), .grpcDialOption ⟨⟨7⟩⟩] rfl
    (by decide) rfl

/-! ## Lemmas on the threaded methods -/

theorem isSetStep_eq (ds : DialSettings) (k : SettingKey) :
    ds.IsSetStep k = (ds, ds.IsSet k) := by
  unfold DialSettings.IsSetStep DialSettings.IsSet
  cases ds.m <;> rfl

theorem ite_pair {α β : Type} (c : Prop) [Decidable c] (a : α) (x y : β) (p q : α × β)
    (hp : p = (a, x)) (hq : q = (a, y)) : (if c then p else q) = (a, if c then x else y) := by
  subst hp hq
  split <;> rfl

theorem validateStep_eq (ds : DialSettings) : ds.ValidateStep = (ds, ds.Validate) := by
  have h6 : (if ds.HTTPClient.isSome = true then ds.IsSetStep GRPCConnSettingKey else (ds, false))
      = (ds, ds.HTTPClient.isSome && ds.IsSet GRPCConnSettingKey) := by
    rw [isSetStep_eq]
    cases ds.HTTPClient.isSome <;> rfl
  have h11 : (if ds.ClientCertSource.isSome = true then
        ((ds.IsSetStep GRPCConnSettingKey).1,
          (ds.IsSetStep GRPCConnSettingKey).2 ||
            (ds.IsSetStep GRPCConnSettingKey).1.GRPCConnPool.isSome ||
            (ds.IsSetStep GRPCConnSettingKey).1.GRPCConnPoolSize != 0 ||
            (ds.IsSetStep GRPCConnSettingKey).1.GRPCDialOpts.isSome)
      else (ds, false))
      = (ds, ds.ClientCertSource.isSome && (ds.IsSet GRPCConnSettingKey ||
          ds.GRPCConnPool.isSome || ds.GRPCConnPoolSize != 0 || ds.GRPCDialOpts.isSome)) := by
    rw [isSetStep_eq]
    cases ds.ClientCertSource.isSome <;> rfl
  unfold DialSettings.ValidateStep DialSettings.Validate
  refine ite_pair _ _ _ _ _ _ rfl ?_
  refine ite_pair _ _ _ _ _ _ rfl ?_
  refine ite_pair _ _ _ _ _ _ rfl ?_
  refine ite_pair _ _ _ _ _ _ rfl ?_
  rw [isSetStep_eq]
  refine ite_pair _ _ _ _ _ _ rfl ?_
  refine ite_pair _ _ _ _ _ _ rfl ?_
  dsimp only
  rw [h6]
  dsimp only
  refine ite_pair _ _ _ _ _ _ rfl ?_
  refine ite_pair _ _ _ _ _ _ rfl ?_
  refine ite_pair _ _ _ _ _ _ rfl ?_
  refine ite_pair _ _ _ _ _ _ rfl ?_
  refine ite_pair _ _ _ _ _ _ rfl ?_
  rw [h11]
  dsimp only
  refine ite_pair _ _ _ _ _ _ rfl ?_
  cases ds.ImpersonationConfig with
  | none => rfl
  | some cfg => exact ite_pair _ _ _ _ _ _ rfl rfl

/-! ## Lemmas on reads after writes -/

theorem setSetting_m (ds : DialSettings) (k : SettingKey) (v : Value) :
    (ds.SetSetting k v).m = some (mapStore k v (ds.m.getD [])) := by
  cases hm : ds.m <;> simp [DialSettings.SetSetting, hm]

theorem getSetting_of_m_some (ds : DialSettings) (k : SettingKey)
    (m : List (SettingKey × Value)) (hm : ds.m = some m) :
    ds.GetSetting k = (ds, (mapLookup k m).getD Value.nil, (mapLookup k m).isSome) := by
  unfold DialSettings.GetSetting
  cases hl : mapLookup k m <;> simp [hm, hl]

theorem getSetting_setSetting_self (ds : DialSettings) (k : SettingKey) (v : Value) :
    (ds.SetSetting k v).GetSetting k = (ds.SetSetting k v, v, true) := by
  rw [getSetting_of_m_some _ k _ (setSetting_m ds k v), mapLookup_mapStore_self]
  rfl

theorem getGRPCConnSetting_of_not_isSet (ds : DialSettings)
    (h : ds.IsSet GRPCConnSettingKey = false) :
    (GetGRPCConnSetting ds).map Prod.snd = some none := by
  have h2 := getSetting_of_not_isSet ds GRPCConnSettingKey h
  unfold GetGRPCConnSetting
  rcases hg : ds.GetSetting GRPCConnSettingKey with ⟨d, v, ok⟩
  rw [hg] at h2
  simp only [Prod.mk.injEq] at h2
  obtain ⟨hv, hok⟩ := h2
  subst hv hok
  rfl

theorem isSet_getSetting_fst (ds : DialSettings) (k k' : SettingKey) :
    (ds.GetSetting k).1.IsSet k' = ds.IsSet k' := by
  cases hm : ds.m <;> simp [getSetting_fst, DialSettings.IsSet, hm, mapLookup]

theorem getSetting_snd_eq (ds : DialSettings) (k : SettingKey) :
    (ds.GetSetting k).2 = ((mapLookup k (ds.m.getD [])).getD Value.nil,
      (mapLookup k (ds.m.getD [])).isSome) := by
  cases hm : ds.m with
  | none => simp [DialSettings.GetSetting, hm, mapLookup]
  | some m => rw [getSetting_of_m_some ds k m hm]; rfl

/-! ## Claims on the getter and on frames -/

/-- C11: `GetGRPCConnSetting` returns `c` on the record after `GRPCConnSetting{c}.Apply`,
also when another connection was applied before, and returns nil on a record in which the
gRPC-connection key is not set, as is every record reached from a nil side-table by operations
none of which writes that key. -/
theorem getGRPCConnSetting_after_apply (c c' : Option ClientConn) (ds : DialSettings) :
    (GetGRPCConnSetting ((WithGRPCConn c).Apply ds)).map Prod.snd = some c ∧
      (GetGRPCConnSetting ((WithGRPCConn c).Apply ((WithGRPCConn c').Apply ds))).map Prod.snd
        = some c ∧
      (ds.IsSet GRPCConnSettingKey = false →
        (GetGRPCConnSetting ds).map Prod.snd = some none) ∧
      (∀ (ds₀ : DialSettings) (ops : List RecordOp), ds₀.m = none →
        (∀ op ∈ ops, RecordOp.writes GRPCConnSettingKey op = false) → ds = runOps ds₀ ops →
        (GetGRPCConnSetting ds).map Prod.snd = some none) := by
  have key : ∀ (d : DialSettings) (p : Option ClientConn),
      (GetGRPCConnSetting ((WithGRPCConn p).Apply d)).map Prod.snd = some p := by
    intro d p
    unfold GetGRPCConnSetting WithGRPCConn GRPCConnSetting.Apply
    rw [getSetting_setSetting_self]
    rfl
  refine ⟨key ds c, key _ c, getGRPCConnSetting_of_not_isSet ds, ?_⟩
  intro ds₀ ops h₀ hops hds
  apply getGRPCConnSetting_of_not_isSet
  rw [hds, isSet_runOps_of_not_writes ops ds₀ _ hops]
  simp [DialSettings.IsSet, h₀]

/-- Witness of C11: after a pool size and a dial option on the empty record, the getter
returns nil. -/
theorem getGRPCConnSetting_after_apply_witness :
    (GetGRPCConnSetting (runOps DialSettings.empty
        [.grpcConnectionPool ⟨4⟩, .grpcDialOption ⟨⟨7⟩⟩])).map Prod.snd = some none :=
  (getGRPCConnSetting_after_apply none none _).2.2.2 DialSettings.empty
    [.grpcConnectionPool ⟨4⟩, .grpcDialOption ⟨⟨7⟩⟩] rfl (by decide) rfl

/-- C12 (as amended): `IsSet(k)` leaves the record unchanged; `GetSetting(k)` leaves every
fixed field and the content of the side-table unchanged, so that `IsSet` and `GetSetting` answer
the same for every key afterwards, and it leaves the whole record unchanged when the side-table
is allocated; a nil side-table it replaces by an allocated one without entry. -/
theorem getSetting_isSet_frame (ds : DialSettings) (k : SettingKey) :
    (ds.IsSetStep k).1 = ds ∧
      (ds.m ≠ none → (ds.GetSetting k).1 = ds) ∧
      (ds.GetSetting k).1 = { ds with m := some (ds.m.getD []) } ∧
      (∀ k' : SettingKey, (ds.GetSetting k).1.IsSet k' = ds.IsSet k' ∧
        ((ds.GetSetting k).1.GetSetting k').2 = (ds.GetSetting k').2) := by
  refine ⟨by rw [isSetStep_eq], ?_, ?_, ?_⟩
  · intro hm
    rw [getSetting_fst, if_neg hm]
  · rw [getSetting_fst]
    cases hm : ds.m with
    | none => simp
    | some m =>
      have : ds = { ds with m := some m } := by rw [← hm]
      simpa using this
  · intro k'
    refine ⟨isSet_getSetting_fst ds k k', ?_⟩
    rw [getSetting_snd_eq, getSetting_snd_eq, getSetting_fst]
    cases hm : ds.m <;> simp [hm]

/-- Witness of C12 at the record left by `SetSetting("a", 1)` on the empty record. -/
theorem getSetting_isSet_frame_witness :
    (DialSettings.empty.SetSetting "a" (.int 1)).m ≠ none ∧
      ((DialSettings.empty.SetSetting "a" (.int 1)).GetSetting "b").1
        = DialSettings.empty.SetSetting "a" (.int 1) :=
  ⟨by decide, (getSetting_isSet_frame _ "b").2.1 (by decide)⟩

/-- C12 fails as stated: `GetSetting` on the empty record, whose side-table is nil, leaves a
record whose side-table is allocated. -/
theorem getSetting_allocates_counterexample :
    DialSettings.empty.m = none ∧
      (DialSettings.empty.GetSetting GRPCConnSettingKey).1.m = some [] ∧
      (DialSettings.empty.GetSetting GRPCConnSettingKey).1 ≠ DialSettings.empty :=
  ⟨rfl, rfl, by decide⟩

/-- C13: `Validate` leaves the record unchanged, and a second call on the record the first
one leaves returns the same outcome. -/
theorem validate_frame (ds : DialSettings) :
    ds.ValidateStep.1 = ds ∧ ds.ValidateStep.2 = ds.Validate ∧
      ds.ValidateStep.1.ValidateStep.2 = ds.ValidateStep.2 := by
  rw [validateStep_eq]
  refine ⟨rfl, rfl, ?_⟩
  rw [validateStep_eq]

/-! ## Lemmas on the first rule that holds -/

theorem rule_error_injective : ∀ r₁ r₂ : Rule, r₁.error = r₂.error → r₁ = r₂ := by
  intro r₁ r₂
  cases r₁ <;> cases r₂ <;> first | (intro _; rfl) | (intro h; exact absurd h (by decide))

theorem find_rule_lowest (ds : DialSettings) (r : Rule)
    (hf : Rule.all.find? (Rule.holds ds) = some r) :
    Rule.holds ds r = true ∧ ∀ r' : Rule, r'.number < r.number → Rule.holds ds r' = false := by
  have hr : Rule.holds ds r = true := by simpa using List.find?_some hf
  refine ⟨hr, ?_⟩
  intro r' hlt
  by_contra hne
  have hr' : Rule.holds ds r' = true := by simpa using hne
  revert hf
  simp only [Rule.all, List.find?]
  cases r <;> cases r' <;> simp [Rule.number] at hlt <;>
    simp [hr'] <;> (repeat' split) <;> simp_all

theorem applyOptions_dialOptions (os : List DialOption) (ds : DialSettings) :
    applyOptions ds (os.map fun o => ClientOption.dialOption (WithGRPCDialOption o)) =
      { ds with GRPCDialOpts :=
          if os = [] then ds.GRPCDialOpts else some (ds.GRPCDialOpts.getD [] ++ os) } := by
  induction os generalizing ds with
  | nil => rfl
  | cons o rest ih =>
    show applyOptions ((WithGRPCDialOption o).Apply ds) _ = _
    rw [ih]
    cases hopts : ds.GRPCDialOpts <;> by_cases hrest : rest = [] <;>
      simp [withGRPCDialOption.Apply, WithGRPCDialOption, goAppend, hopts, hrest]

theorem applyOptions_pools (ss : List Int) (ds : DialSettings) :
    applyOptions ds (ss.map fun s => ClientOption.connectionPool (WithGRPCConnectionPool s)) =
      { ds with GRPCConnPoolSize := (ss.getLast?).getD ds.GRPCConnPoolSize } := by
  induction ss generalizing ds with
  | nil => rfl
  | cons s rest ih =>
    show applyOptions ((WithGRPCConnectionPool s).Apply ds) _ = _
    rw [ih]
    cases rest with
    | nil => rfl
    | cons s' rest' =>
      have hl : (s' :: rest').getLast? = some ((s' :: rest').getLast (List.cons_ne_nil _ _)) :=
        List.getLast?_eq_getLast _ _
      simp [withGRPCConnectionPool.Apply, WithGRPCConnectionPool, List.getLast?_cons_cons, hl]

/-! ## Claims on messages, options and single rules -/

/-- C14: the messages of the twelve rules are pairwise distinct, every error `Validate`
returns is the message of a rule, and the message tells which rule fired: the rule with that
message holds and no rule with a lower number does. -/
theorem rule_error_identifies_rule :
    (∀ r₁ r₂ : Rule, r₁.error = r₂.error → r₁.number = r₂.number) ∧
      (∀ r₁ r₂ : Rule, r₁.number = r₂.number → r₁ = r₂) ∧
      (∀ (ds : DialSettings) (msg : String), ds.Validate = some msg →
        ∃ r : Rule, msg = r.error) ∧
      (∀ (ds : DialSettings) (r : Rule), ds.Validate = some r.error →
        Rule.holds ds r = true ∧
          ∀ r' : Rule, r'.number < r.number → Rule.holds ds r' = false) := by
  have hskip : ∀ (ds : DialSettings) (msg : String), ds.Validate = some msg →
      ds.SkipValidation = false := by
    intro ds msg hv
    cases hs : ds.SkipValidation with
    | false => rfl
    | true => simp [DialSettings.Validate, hs] at hv
  refine ⟨fun r₁ r₂ h => by rw [rule_error_injective r₁ r₂ h], ?_, ?_, ?_⟩
  · intro r₁ r₂
    cases r₁ <;> cases r₂ <;> simp [Rule.number]
  · intro ds msg hv
    rw [validate_eq_find ds (hskip ds msg hv), Option.map_eq_some'] at hv
    obtain ⟨r, _, hr⟩ := hv
    exact ⟨r, hr.symm⟩
  · intro ds r hv
    rw [validate_eq_find ds (hskip ds _ hv), Option.map_eq_some'] at hv
    obtain ⟨r₀, hf, hr⟩ := hv
    rw [← rule_error_injective r₀ r hr]
    exact find_rule_lowest ds r₀ hf

/-- Witness of C14: the quota-project message on the record with an HTTP client and a quota
project shows that rule 8 holds there. -/
theorem rule_error_identifies_rule_witness :
    recHTTPQuota.Validate = some Rule.httpQuotaProject.error ∧
      Rule.holds recHTTPQuota .httpQuotaProject = true :=
  ⟨rfl, (rule_error_identifies_rule.2.2.2 recHTTPQuota .httpQuotaProject rfl).1⟩

/-- C15: dial options `o1..on` applied in order turn the dial-option list `L` into
`L ++ [o1, ..., on]` and change no other field; pool-size options applied in order leave
the pool size of the last one and change no other field. -/
theorem applyOptions_append_and_last_wins (ds : DialSettings) (os : List DialOption)
    (ss : List Int) (sn : Int) :
    applyOptions ds (os.map fun o => ClientOption.dialOption (WithGRPCDialOption o)) =
        { ds with GRPCDialOpts :=
            if os = [] then ds.GRPCDialOpts else some (ds.GRPCDialOpts.getD [] ++ os) } ∧
      (applyOptions ds
          (os.map fun o => ClientOption.dialOption (WithGRPCDialOption o))).GRPCDialOpts.getD []
        = ds.GRPCDialOpts.getD [] ++ os ∧
      applyOptions ds
          ((ss ++ [sn]).map fun s => ClientOption.connectionPool (WithGRPCConnectionPool s)) =
        { ds with GRPCConnPoolSize := sn } := by
  refine ⟨applyOptions_dialOptions os ds, ?_, ?_⟩
  · rw [applyOptions_dialOptions]
    by_cases hos : os = [] <;> simp [hos]
  · rw [applyOptions_pools]
    simp

/-- C16: on the record that holds only an impersonation config and a top-level scope list,
`Validate` returns nil exactly when the scope list of the config or the top-level one is not
empty, and returns the impersonation-requires-scopes error otherwise. -/
theorem validate_impersonation_scopes (cfg : ImpersonateConfig) (scopes : Option (List String)) :
    (({ DialSettings.empty with ImpersonationConfig := some cfg, Scopes := scopes }
        : DialSettings).Validate = none ↔ (0 < len cfg.Scopes ∨ 0 < len scopes)) ∧
      (¬ (0 < len cfg.Scopes ∨ 0 < len scopes) →
        ({ DialSettings.empty with ImpersonationConfig := some cfg, Scopes := scopes }
          : DialSettings).Validate
          = some "WithImpersonatedCredentials requires scopes being provided") := by
  have hv : ({ DialSettings.empty with ImpersonationConfig := some cfg, Scopes := scopes }
      : DialSettings).Validate
      = if (len cfg.Scopes == 0 && len scopes == 0) = true then
          some "WithImpersonatedCredentials requires scopes being provided" else none := by
    simp [DialSettings.Validate, DialSettings.empty, DialSettings.IsSet, len]
  rw [hv]
  constructor
  · constructor
    · intro h
      by_contra hno
      have : (len cfg.Scopes == 0 && len scopes == 0) = true := by
        simp only [not_or, Nat.not_lt, Nat.le_zero] at hno
        simp [hno.1, hno.2]
      simp [this] at h
    · intro h
      have : (len cfg.Scopes == 0 && len scopes == 0) = false := by
        rcases h with h | h
        · simp [Nat.pos_iff_ne_zero.1 h]
        · simp [Nat.pos_iff_ne_zero.1 h]
      simp [this]
  · intro hno
    simp only [not_or, Nat.not_lt, Nat.le_zero] at hno
    simp [hno.1, hno.2]

/-- Witness of C16: a config without scopes next to no top-level scope is rejected. -/
theorem validate_impersonation_scopes_witness :
    ({ DialSettings.empty with ImpersonationConfig := some ⟨"sa", none⟩, Scopes := none }
        : DialSettings).Validate
      = some "WithImpersonatedCredentials requires scopes being provided" :=
  (validate_impersonation_scopes ⟨"sa", none⟩ none).2 (by decide)

/-- C17: for keys `k ≠ k'`, `SetSetting(k, v)` leaves the result of `GetSetting(k')`, the
result of `IsSet(k')` and every fixed field unchanged. -/
theorem setSetting_frame (ds : DialSettings) (k k' : SettingKey) (v : Value) (hne : k ≠ k') :
    ((ds.SetSetting k v).GetSetting k').2 = (ds.GetSetting k').2 ∧
      (ds.SetSetting k v).IsSet k' = ds.IsSet k' ∧
      { ds.SetSetting k v with m := ds.m } = ds := by
  refine ⟨?_, isSet_setSetting_other ds k k' v hne.symm, ?_⟩
  · rw [getSetting_snd_eq, getSetting_snd_eq, setSetting_m]
    simp [mapLookup_mapStore_other k k' v _ hne.symm]
  · cases hm : ds.m <;> simp [DialSettings.SetSetting, hm] <;> rw [← hm]

/-- Witness of C17: storing under key `a` leaves key `b` of a record as it was. -/
theorem setSetting_frame_witness :
    (((DialSettings.empty.SetSetting "b" (.int 2)).SetSetting "a" (.int 1)).GetSetting "b").2
        = (Value.int 2, true) ∧
      ((DialSettings.empty.SetSetting "b" (.int 2)).SetSetting "a" (.int 1)).IsSet "b" = true :=
  ⟨(setSetting_frame (DialSettings.empty.SetSetting "b" (.int 2)) "a" "b" (.int 1)
      (by decide)).1.trans rfl,
    (setSetting_frame (DialSettings.empty.SetSetting "b" (.int 2)) "a" "b" (.int 1)
      (by decide)).2.1.trans rfl⟩

/-- C18: with the skip-validation flag unset, the no-auth flag set, raw credentials JSON
present and API key, token source, credentials file and parsed credentials absent, `Validate`
returns what it returns with the no-auth flag cleared; no-auth with only raw credentials JSON
validates. -/
theorem validate_noAuth_json (ds : DialSettings) (h : ds.SkipValidation = false)
    (hn : ds.NoAuth = true) (hj : ds.CredentialsJSON ≠ none) (hk : ds.APIKey = "")
    (ht : ds.TokenSource = none) (hf : ds.CredentialsFile = "") (hc : ds.Credentials = none) :
    ds.Validate = ({ ds with NoAuth := false } : DialSettings).Validate ∧
      ∀ json : List (Fin 256),
        ({ DialSettings.empty with NoAuth := true, CredentialsJSON := some json }
          : DialSettings).Validate = none := by
  have _ := hj
  constructor
  · unfold DialSettings.Validate
    simp [h, hn, hk, ht, hf, hc, DialSettings.IsSet]
  · intro json
    rfl

/-- Witness of C18 at the record with the no-auth flag and raw credentials JSON. -/
theorem validate_noAuth_json_witness :
    recNoAuthJSON.NoAuth = true ∧ recNoAuthJSON.CredentialsJSON ≠ none ∧
      recNoAuthJSON.Validate = ({ recNoAuthJSON with NoAuth := false } : DialSettings).Validate :=
  ⟨rfl, by decide,
    (validate_noAuth_json recNoAuthJSON rfl rfl (by decide) rfl rfl rfl rfl).1⟩

/-! ## Invariants of the records built by options -/

theorem setSetting_GRPCDialOpts (ds : DialSettings) (k : SettingKey) (v : Value) :
    (ds.SetSetting k v).GRPCDialOpts = ds.GRPCDialOpts := by
  cases hm : ds.m <;> simp [DialSettings.SetSetting, hm]

theorem apply_dialOpts_nil_or_nonempty (o : ClientOption) (ds : DialSettings)
    (h : ds.GRPCDialOpts = none ∨ 0 < len ds.GRPCDialOpts) :
    (o.Apply ds).GRPCDialOpts = none ∨ 0 < len (o.Apply ds).GRPCDialOpts := by
  cases o with
  | grpcConn s =>
    simpa [ClientOption.Apply, GRPCConnSetting.Apply, setSetting_GRPCDialOpts] using h
  | dialOption w =>
    right
    cases hopts : ds.GRPCDialOpts <;>
      simp [ClientOption.Apply, withGRPCDialOption.Apply, goAppend, hopts, len]
  | connectionPool w => exact h

theorem applyOptions_dialOpts_nil_or_nonempty (opts : List ClientOption) (ds : DialSettings)
    (h : ds.GRPCDialOpts = none ∨ 0 < len ds.GRPCDialOpts) :
    (applyOptions ds opts).GRPCDialOpts = none ∨ 0 < len (applyOptions ds opts).GRPCDialOpts := by
  induction opts generalizing ds with
  | nil => exact h
  | cons o rest ih => exact ih (o.Apply ds) (apply_dialOpts_nil_or_nonempty o ds h)

theorem applyOptions_skipValidation (opts : List ClientOption) (ds : DialSettings) :
    (applyOptions ds opts).SkipValidation = ds.SkipValidation := by
  induction opts generalizing ds with
  | nil => rfl
  | cons o rest ih =>
    show (applyOptions (o.Apply ds) rest).SkipValidation = _
    rw [ih]
    cases o with
    | grpcConn s => exact setSetting_skipValidation ds _ _
    | dialOption w => rfl
    | connectionPool w => rfl

theorem apply_conn_typed (o : ClientOption) (ds : DialSettings)
    (h : ∀ v, mapLookup GRPCConnSettingKey (ds.m.getD []) = some v →
      ∃ p, v = Value.grpcClientConn p) :
    ∀ v, mapLookup GRPCConnSettingKey ((o.Apply ds).m.getD []) = some v →
      ∃ p, v = Value.grpcClientConn p := by
  cases o with
  | grpcConn s =>
    intro v hv
    rw [ClientOption.Apply, GRPCConnSetting.Apply, setSetting_m, Option.getD_some,
      mapLookup_mapStore_self] at hv
    exact ⟨s.Value, (Option.some.inj hv).symm⟩
  | dialOption w => exact h
  | connectionPool w => exact h

theorem applyOptions_conn_typed (opts : List ClientOption) (ds : DialSettings)
    (h : ∀ v, mapLookup GRPCConnSettingKey (ds.m.getD []) = some v →
      ∃ p, v = Value.grpcClientConn p) :
    ∀ v, mapLookup GRPCConnSettingKey ((applyOptions ds opts).m.getD []) = some v →
      ∃ p, v = Value.grpcClientConn p := by
  induction opts generalizing ds with
  | nil => exact h
  | cons o rest ih => exact ih (o.Apply ds) (apply_conn_typed o ds h)

theorem getGRPCConnSetting_of_conn_typed (ds : DialSettings)
    (h : ∀ v, mapLookup GRPCConnSettingKey (ds.m.getD []) = some v →
      ∃ p, v = Value.grpcClientConn p) :
    ∃ p, (GetGRPCConnSetting ds).map Prod.snd = some p := by
  have hs := getSetting_snd_eq ds GRPCConnSettingKey
  unfold GetGRPCConnSetting
  rcases hg : ds.GetSetting GRPCConnSettingKey with ⟨d, v, ok⟩
  rw [hg] at hs
  simp only [Prod.mk.injEq] at hs
  obtain ⟨hv, hok⟩ := hs
  cases hl : mapLookup GRPCConnSettingKey (ds.m.getD []) with
  | none =>
    rw [hl] at hv hok
    subst hv hok
    exact ⟨none, rfl⟩
  | some v' =>
    rw [hl] at hv hok
    obtain ⟨p, hp⟩ := h v' hl
    subst hv hok hp
    exact ⟨p, rfl⟩

/-! ## Claims on the records built by options -/

/-- C19: on a record reached from the empty record by a sequence of the three options, the
dial-option list is nil exactly when its length is zero, so the rule conditions with the nil
test are those of the rule table, and `Validate` returns nil exactly when no condition of the
table holds. -/
theorem dialOpts_nil_iff_empty_after_options (opts : List ClientOption) :
    ((applyOptions DialSettings.empty opts).GRPCDialOpts = none ↔
        len (applyOptions DialSettings.empty opts).GRPCDialOpts = 0) ∧
      (∀ r : Rule, Rule.holds (applyOptions DialSettings.empty opts) r
        = Rule.specHolds (applyOptions DialSettings.empty opts) r) ∧
      ((applyOptions DialSettings.empty opts).Validate = none ↔
        ∀ r : Rule, Rule.specHolds (applyOptions DialSettings.empty opts) r = false) := by
  have hinv := applyOptions_dialOpts_nil_or_nonempty opts DialSettings.empty (Or.inl rfl)
  have hskip : (applyOptions DialSettings.empty opts).SkipValidation = false := by
    rw [applyOptions_skipValidation]
    rfl
  refine ⟨?_, holds_eq_specHolds _ hinv, ?_⟩
  · constructor
    · intro hn
      rw [hn]
      rfl
    · intro hz
      rcases hinv with hn | hp
      · exact hn
      · omega
  · rw [validate_eq_none_iff _ hskip]
    constructor
    · intro hall r
      rw [← holds_eq_specHolds _ hinv r]
      exact hall r
    · intro hall r
      rw [holds_eq_specHolds _ hinv r]
      exact hall r

/-- C20: on a record reached from the empty record by a sequence of the three options, a
value read under the gRPC-connection key is a `*grpc.ClientConn`, and `GetGRPCConnSetting`
returns a connection pointer: the type assertion does not panic. -/
theorem getGRPCConnSetting_total_after_options (opts : List ClientOption) :
    (∀ v : Value,
        ((applyOptions DialSettings.empty opts).GetSetting GRPCConnSettingKey).2 = (v, true) →
        ∃ p, v = Value.grpcClientConn p) ∧
      (∃ p, (GetGRPCConnSetting (applyOptions DialSettings.empty opts)).map Prod.snd = some p) ∧
      GetGRPCConnSetting (applyOptions DialSettings.empty opts) ≠ none := by
  have hinv := applyOptions_conn_typed opts DialSettings.empty (by
    intro v hv
    simp [DialSettings.empty, mapLookup] at hv)
  have hget := getGRPCConnSetting_of_conn_typed _ hinv
  refine ⟨?_, hget, ?_⟩
  · intro v hv
    rw [getSetting_snd_eq] at hv
    simp only [Prod.mk.injEq] at hv
    obtain ⟨hv1, hv2⟩ := hv
    cases hl : mapLookup GRPCConnSettingKey ((applyOptions DialSettings.empty opts).m.getD []) with
    | none => simp [hl] at hv2
    | some v' =>
      rw [hl] at hv1
      obtain ⟨p, hp⟩ := hinv v' hl
      exact ⟨p, by rw [← hv1]; exact hp⟩
  · intro hnone
    obtain ⟨p, hp⟩ := hget
    rw [hnone] at hp
    simp at hp

/-- Witness of C20: after a connection, a dial option and a pool size, the value under the
gRPC-connection key is the connection. -/
theorem getGRPCConnSetting_total_after_options_witness :
    ((applyOptions DialSettings.empty
          [.grpcConn ⟨some ⟨1⟩⟩, .dialOption ⟨⟨7⟩⟩, .connectionPool ⟨4⟩]).GetSetting
        GRPCConnSettingKey).2 = (Value.grpcClientConn (some ⟨1⟩), true) ∧
      ∃ p, Value.grpcClientConn (some ⟨1⟩) = Value.grpcClientConn p :=
  ⟨rfl, (getGRPCConnSetting_total_after_options
    [.grpcConn ⟨some ⟨1⟩⟩, .dialOption ⟨⟨7⟩⟩, .connectionPool ⟨4⟩]).1
    (Value.grpcClientConn (some ⟨1⟩)) rfl⟩


end DialSettingsSpec
